import Mathlib

/-!
Verification of the PlexInvest Québec calculation engine
(`backend/app/services/{transfer_tax,mortgage,brrrr_engine}.py`).

The Python code computes with `decimal.Decimal`, which is exact decimal
arithmetic at these magnitudes; we embed all `Decimal` values as rationals
(`ℚ`).  `Decimal.quantize(Decimal("0.01"), ROUND_HALF_UP)` is `roundHalfUp2`
below, and a bare `Decimal.quantize(Decimal("0.01"))` uses the default
context rounding `ROUND_HALF_EVEN`, embedded as `roundHalfEven2`.
-/

/-- `x.quantize(Decimal("0.01"), ROUND_HALF_UP)`: round to 2 decimal places,
ties away from zero. -/
def roundHalfUp2 (x : ℚ) : ℚ :=
  if 0 ≤ x then (⌊x * 100 + 1/2⌋ : ℚ) / 100
  else -((⌊(-x) * 100 + 1/2⌋ : ℚ) / 100)

/-- `x.quantize(Decimal("0.01"))` under the default context rounding
`ROUND_HALF_EVEN`: round to 2 decimal places, ties to even cents. -/
def roundHalfEven2 (x : ℚ) : ℚ :=
  (if x * 100 - ⌊x * 100⌋ < 1/2 then (⌊x * 100⌋ : ℚ)
   else if 1/2 < x * 100 - ⌊x * 100⌋ then (⌊x * 100⌋ : ℚ) + 1
   else if Even ⌊x * 100⌋ then (⌊x * 100⌋ : ℚ) else (⌊x * 100⌋ : ℚ) + 1) / 100

/-- `x.quantize(Decimal("0.0001"))` (default `ROUND_HALF_EVEN`), used for
LTV-style ratios. -/
def roundHalfEven4 (x : ℚ) : ℚ :=
  (if x * 10000 - ⌊x * 10000⌋ < 1/2 then (⌊x * 10000⌋ : ℚ)
   else if 1/2 < x * 10000 - ⌊x * 10000⌋ then (⌊x * 10000⌋ : ℚ) + 1
   else if Even ⌊x * 10000⌋ then (⌊x * 10000⌋ : ℚ) else (⌊x * 10000⌋ : ℚ) + 1) / 10000

/-- `MunicipalityCode` enum from `app/models/financial.py`. -/
inductive MunicipalityCode where
  | MONTREAL
  | QUEBEC_CITY
  | LAVAL
  | LONGUEUIL
  | GATINEAU
  | SHERBROOKE
  | TROIS_RIVIERES
  | OTHER_QC
deriving DecidableEq, Repr

/-- `TaxBracket` from `transfer_tax.py`: `{min, max, rate}` as `Decimal`s.
The `min`/`max` fields of the source are named `lo`/`hi` here so that they do
not shadow `Min.min`/`Max.max` in the bracket loops below. -/
structure TaxBracket where
  lo : ℚ
  hi : ℚ
  rate : ℚ
deriving DecidableEq, Repr

/-- One entry of the optional `additional_rates` list
(`{threshold, rate}`). -/
structure AdditionalRate where
  threshold : ℚ
  rate : ℚ
deriving DecidableEq, Repr

/-- `MunicipalityTaxConfig` from `transfer_tax.py`.  Python's
`additional_rates: list | None` is embedded as a list, with `[]` for `None`
(both make the `if tax_config["additional_rates"]` guard skip the loop). -/
structure MunicipalityTaxConfig where
  name : String
  brackets : List TaxBracket
  additional_rates : List AdditionalRate
deriving DecidableEq, Repr

/-- `TRANSFER_TAX_TABLES` (2025 grids), transcribed bracket by bracket. -/
def TRANSFER_TAX_TABLES : MunicipalityCode → MunicipalityTaxConfig
  | .MONTREAL =>
    ⟨"Montréal",
     [⟨0, 58900, 5/1000⟩,
      ⟨58900, 294500, 1/100⟩,
      ⟨294500, 500000, 15/1000⟩,
      ⟨500000, 1000000, 2/100⟩,
      ⟨1000000, 2000000, 25/1000⟩,
      ⟨2000000, 999999999, 3/100⟩],
     [⟨2136600, 5/1000⟩]⟩
  | .QUEBEC_CITY =>
    ⟨"Québec",
     [⟨0, 55200, 5/1000⟩,
      ⟨55200, 276200, 1/100⟩,
      ⟨276200, 500000, 15/1000⟩,
      ⟨500000, 999999999, 2/100⟩],
     []⟩
  | .LAVAL =>
    ⟨"Laval",
     [⟨0, 55200, 5/1000⟩,
      ⟨55200, 276200, 1/100⟩,
      ⟨276200, 500000, 15/1000⟩,
      ⟨500000, 999999999, 2/100⟩],
     []⟩
  | .LONGUEUIL =>
    ⟨"Longueuil",
     [⟨0, 55200, 5/1000⟩,
      ⟨55200, 276200, 1/100⟩,
      ⟨276200, 500000, 15/1000⟩,
      ⟨500000, 999999999, 2/100⟩],
     []⟩
  | .GATINEAU =>
    ⟨"Gatineau",
     [⟨0, 55200, 5/1000⟩,
      ⟨55200, 276200, 1/100⟩,
      ⟨276200, 999999999, 15/1000⟩],
     []⟩
  | .SHERBROOKE =>
    ⟨"Sherbrooke",
     [⟨0, 55200, 5/1000⟩,
      ⟨55200, 276200, 1/100⟩,
      ⟨276200, 999999999, 15/1000⟩],
     []⟩
  | .TROIS_RIVIERES =>
    ⟨"Trois-Rivières",
     [⟨0, 55200, 5/1000⟩,
      ⟨55200, 276200, 1/100⟩,
      ⟨276200, 999999999, 15/1000⟩],
     []⟩
  | .OTHER_QC =>
    ⟨"Autre (Québec)",
     [⟨0, 55200, 5/1000⟩,
      ⟨55200, 276200, 1/100⟩,
      ⟨276200, 999999999, 15/1000⟩],
     []⟩

/-- The bracket loop of `calculate_transfer_tax` (lines 138-146): iterate
the brackets in order, `break` as soon as `purchase_price <= bracket["min"]`
(embedded as returning 0 for the remaining brackets), otherwise add
`(min(price, max) - min) * rate` when that taxable amount is positive. -/
def bracketsTax : List TaxBracket → ℚ → ℚ
  | [], _ => 0
  | b :: rest, price =>
    if price ≤ b.lo then 0
    else
      (if 0 < min price b.hi - b.lo then (min price b.hi - b.lo) * b.rate else 0) +
        bracketsTax rest price

/-- The `additional_rates` loop shared by both transfer-tax functions
(lines 149-153 and 203-206): for each threshold strictly exceeded by the
price, add `(price - threshold) * rate`. -/
def additionalTaxOf (rs : List AdditionalRate) (price : ℚ) : ℚ :=
  (rs.map (fun a => if a.threshold < price then (price - a.threshold) * a.rate else 0)).sum

/-- `calculate_transfer_tax` (`transfer_tax.py` lines 117-155): bracket tax
plus additional tax, quantized once with `ROUND_HALF_UP`.  The municipality
argument is the (total) enum, so the unsupported-municipality `ValueError`
branch is unreachable here. -/
def calculate_transfer_tax (purchase_price : ℚ) (municipality : MunicipalityCode) : ℚ :=
  roundHalfUp2 (bracketsTax (TRANSFER_TAX_TABLES municipality).brackets purchase_price +
    additionalTaxOf (TRANSFER_TAX_TABLES municipality).additional_rates purchase_price)

/-- `TransferTaxBreakdownItem` (`financial.py`).  The two display-only string
fields (`range`, `rate`) are produced by f-string formatting for humans; no
theorem depends on them and they are not modelled. -/
structure TransferTaxBreakdownItem where
  taxable_amount : ℚ
  tax : ℚ
deriving DecidableEq, Repr

/-- `TransferTaxBreakdown` (`financial.py`), monetary fields only. -/
structure TransferTaxBreakdown where
  municipality : String
  purchase_price : ℚ
  brackets : List TransferTaxBreakdownItem
  additional_tax : ℚ
  total_tax : ℚ
deriving DecidableEq, Repr

/-- The bracket loop of `get_transfer_tax_breakdown` (lines 179-200): same
traversal and `break` as `bracketsTax`, but each emitted line item stores
`taxable_amount.quantize(PRECISION)` and `tax.quantize(PRECISION)`, i.e.
both rounded with the default `ROUND_HALF_EVEN`. -/
def breakdownItems : List TaxBracket → ℚ → List TransferTaxBreakdownItem
  | [], _ => []
  | b :: rest, price =>
    if price ≤ b.lo then []
    else
      if 0 < min price b.hi - b.lo then
        ⟨roundHalfEven2 (min price b.hi - b.lo),
         roundHalfEven2 ((min price b.hi - b.lo) * b.rate)⟩ :: breakdownItems rest price
      else breakdownItems rest price

/-- `get_transfer_tax_breakdown` (`transfer_tax.py` lines 158-216):
`total_tax = sum(b.tax for b in brackets) + additional_tax`, where each
`b.tax` was already quantized (half-even), then `total_tax` and
`additional_tax` are quantized with the default rounding. -/
def get_transfer_tax_breakdown (purchase_price : ℚ) (municipality : MunicipalityCode) :
    TransferTaxBreakdown :=
  ⟨(TRANSFER_TAX_TABLES municipality).name, purchase_price,
   breakdownItems (TRANSFER_TAX_TABLES municipality).brackets purchase_price,
   roundHalfEven2 (additionalTaxOf (TRANSFER_TAX_TABLES municipality).additional_rates
     purchase_price),
   roundHalfEven2
     (((breakdownItems (TRANSFER_TAX_TABLES municipality).brackets purchase_price).map
         (fun b => b.tax)).sum +
       additionalTaxOf (TRANSFER_TAX_TABLES municipality).additional_rates purchase_price)⟩

/-! ### Exact-cents and monotonicity lemmas for the rounding modes -/

lemma roundHalfUp2_mono {x y : ℚ} (hx : 0 ≤ x) (hxy : x ≤ y) :
    roundHalfUp2 x ≤ roundHalfUp2 y := by
  unfold roundHalfUp2
  rw [if_pos hx, if_pos (hx.trans hxy)]
  have h : ⌊x * 100 + 1/2⌋ ≤ ⌊y * 100 + 1/2⌋ := Int.floor_mono (by linarith)
  have h' : ((⌊x * 100 + 1/2⌋ : ℤ) : ℚ) ≤ ((⌊y * 100 + 1/2⌋ : ℤ) : ℚ) := by exact_mod_cast h
  linarith

lemma roundHalfUp2_cents (n : ℤ) : roundHalfUp2 ((n : ℚ) / 100) = (n : ℚ) / 100 := by
  unfold roundHalfUp2
  have h100 : (100 : ℚ) ≠ 0 := by norm_num
  rcases le_or_lt 0 n with h | h
  · rw [if_pos (div_nonneg (by exact_mod_cast h) (by norm_num))]
    rw [div_mul_cancel₀ _ h100, Int.floor_int_add]
    norm_num
  · rw [if_neg (not_le.mpr (div_neg_of_neg_of_pos (by exact_mod_cast h) (by norm_num)))]
    have e1 : -((n : ℚ) / 100) * 100 = ((-n : ℤ) : ℚ) := by
      push_cast
      field_simp
    rw [e1, Int.floor_int_add]
    have e2 : ⌊(1 : ℚ) / 2⌋ = 0 := by norm_num
    rw [e2]
    push_cast
    ring

lemma roundHalfEven2_cents (n : ℤ) : roundHalfEven2 ((n : ℚ) / 100) = (n : ℚ) / 100 := by
  unfold roundHalfEven2
  have h100 : (100 : ℚ) ≠ 0 := by norm_num
  rw [div_mul_cancel₀ _ h100, Int.floor_intCast, sub_self, if_pos (by norm_num)]

/-! ### Structure of the bracket loop -/

lemma bracketsTax_nonneg (bs : List TaxBracket) (p : ℚ)
    (hr : ∀ b ∈ bs, 0 ≤ b.rate) : 0 ≤ bracketsTax bs p := by
  induction bs with
  | nil => simp [bracketsTax]
  | cons b rest ih =>
    have hrb : 0 ≤ b.rate := hr b (by simp)
    have ihr := ih (fun x hx => hr x (by simp [hx]))
    simp only [bracketsTax]
    by_cases h1 : p ≤ b.lo
    · rw [if_pos h1]
    · rw [if_neg h1]
      have hterm : 0 ≤ (if 0 < min p b.hi - b.lo then (min p b.hi - b.lo) * b.rate else 0) := by
        by_cases h2 : 0 < min p b.hi - b.lo
        · rw [if_pos h2]
          exact mul_nonneg h2.le hrb
        · rw [if_neg h2]
      linarith

lemma bracketsTax_mono (bs : List TaxBracket) {p q : ℚ}
    (hr : ∀ b ∈ bs, 0 ≤ b.rate) (hpq : p ≤ q) :
    bracketsTax bs p ≤ bracketsTax bs q := by
  induction bs with
  | nil => simp [bracketsTax]
  | cons b rest ih =>
    have hrb : 0 ≤ b.rate := hr b (by simp)
    have hrr : ∀ x ∈ rest, 0 ≤ x.rate := fun x hx => hr x (by simp [hx])
    simp only [bracketsTax]
    by_cases hq : q ≤ b.lo
    · rw [if_pos (hpq.trans hq), if_pos hq]
    · rw [if_neg hq]
      have hqterm : 0 ≤ (if 0 < min q b.hi - b.lo then (min q b.hi - b.lo) * b.rate else 0) := by
        by_cases h2 : 0 < min q b.hi - b.lo
        · rw [if_pos h2]
          exact mul_nonneg h2.le hrb
        · rw [if_neg h2]
      by_cases hp : p ≤ b.lo
      · rw [if_pos hp]
        have := bracketsTax_nonneg rest q hrr
        linarith
      · rw [if_neg hp]
        have hmin : min p b.hi - b.lo ≤ min q b.hi - b.lo := by
          have : min p b.hi ≤ min q b.hi := min_le_min hpq (le_refl _)
          linarith
        have hterm : (if 0 < min p b.hi - b.lo then (min p b.hi - b.lo) * b.rate else 0) ≤
            (if 0 < min q b.hi - b.lo then (min q b.hi - b.lo) * b.rate else 0) := by
          by_cases h2 : 0 < min p b.hi - b.lo
          · rw [if_pos h2, if_pos (lt_of_lt_of_le h2 hmin)]
            exact mul_le_mul_of_nonneg_right hmin hrb
          · rw [if_neg h2]
            exact hqterm
        have := ih hrr
        linarith

lemma additionalTaxOf_nonneg (rs : List AdditionalRate) (p : ℚ)
    (hr : ∀ a ∈ rs, 0 ≤ a.rate) : 0 ≤ additionalTaxOf rs p := by
  apply List.sum_nonneg
  intro x hx
  simp only [List.mem_map] at hx
  obtain ⟨a, ha, rfl⟩ := hx
  by_cases h1 : a.threshold < p
  · rw [if_pos h1]
    exact mul_nonneg (by linarith) (hr a ha)
  · rw [if_neg h1]

lemma additionalTaxOf_mono (rs : List AdditionalRate) {p q : ℚ}
    (hr : ∀ a ∈ rs, 0 ≤ a.rate) (hpq : p ≤ q) :
    additionalTaxOf rs p ≤ additionalTaxOf rs q := by
  apply List.sum_le_sum
  intro a ha
  by_cases h1 : a.threshold < p
  · rw [if_pos h1, if_pos (lt_of_lt_of_le h1 hpq)]
    exact mul_le_mul_of_nonneg_right (by linarith) (hr a ha)
  · rw [if_neg h1]
    by_cases h2 : a.threshold < q
    · rw [if_pos h2]
      exact mul_nonneg (by linarith) (hr a ha)
    · rw [if_neg h2]

lemma brackets_rate_nonneg (m : MunicipalityCode) :
    ∀ b ∈ (TRANSFER_TAX_TABLES m).brackets, 0 ≤ b.rate := by
  cases m <;> norm_num [TRANSFER_TAX_TABLES, List.forall_mem_cons]

lemma additional_rate_nonneg (m : MunicipalityCode) :
    ∀ a ∈ (TRANSFER_TAX_TABLES m).additional_rates, 0 ≤ a.rate := by
  cases m <;> norm_num [TRANSFER_TAX_TABLES, List.forall_mem_cons]

/-! ### Cent-exactness of the bracket taxes at even-dollar prices -/

lemma bracket_cents_lo_hi (p hi lo r : ℚ) (k c B r5 : ℤ)
    (hp : p = 2 * k) (hhi : hi = 2 * c) (hlo : lo = 2 * B) (hr : r = 5 * r5 / 1000) :
    (min p hi - lo) * r = (((min k c - B) * r5 : ℤ) : ℚ) / 100 := by
  subst hp hhi hlo hr
  rcases le_total k c with h | h
  · have hc : (k : ℚ) ≤ (c : ℚ) := by exact_mod_cast h
    rw [min_eq_left (by linarith : 2 * (k : ℚ) ≤ 2 * (c : ℚ)), min_eq_left h]
    push_cast
    ring
  · have hc : (c : ℚ) ≤ (k : ℚ) := by exact_mod_cast h
    rw [min_eq_right (by linarith : 2 * (c : ℚ) ≤ 2 * (k : ℚ)), min_eq_right h]
    push_cast
    ring

lemma bracket_cents_le (p hi lo r : ℚ) (k B r5 : ℤ)
    (hp : p = 2 * k) (hple : p ≤ hi) (hlo : lo = 2 * B) (hr : r = 5 * r5 / 1000) :
    (min p hi - lo) * r = (((k - B) * r5 : ℤ) : ℚ) / 100 := by
  subst hp hlo hr
  rw [min_eq_left hple]
  push_cast
  ring

lemma tables_cents (m : MunicipalityCode) (k : ℤ) (hk : 2 * (k : ℚ) ≤ 999999999) :
    ∀ b ∈ (TRANSFER_TAX_TABLES m).brackets,
      ∃ n : ℤ, (min (2 * (k : ℚ)) b.hi - b.lo) * b.rate = (n : ℚ) / 100 := by
  intro b hb
  cases m with
  | MONTREAL =>
    simp only [TRANSFER_TAX_TABLES, List.mem_cons, List.not_mem_nil, or_false] at hb
    rcases hb with rfl | rfl | rfl | rfl | rfl | rfl
    · exact ⟨_, bracket_cents_lo_hi _ _ _ _ k 29450 0 1 rfl (by norm_num) (by norm_num)
        (by norm_num)⟩
    · exact ⟨_, bracket_cents_lo_hi _ _ _ _ k 147250 29450 2 rfl (by norm_num) (by norm_num)
        (by norm_num)⟩
    · exact ⟨_, bracket_cents_lo_hi _ _ _ _ k 250000 147250 3 rfl (by norm_num) (by norm_num)
        (by norm_num)⟩
    · exact ⟨_, bracket_cents_lo_hi _ _ _ _ k 500000 250000 4 rfl (by norm_num) (by norm_num)
        (by norm_num)⟩
    · exact ⟨_, bracket_cents_lo_hi _ _ _ _ k 1000000 500000 5 rfl (by norm_num) (by norm_num)
        (by norm_num)⟩
    · exact ⟨_, bracket_cents_le _ _ _ _ k 1000000 6 rfl hk (by norm_num) (by norm_num)⟩
  | QUEBEC_CITY =>
    simp only [TRANSFER_TAX_TABLES, List.mem_cons, List.not_mem_nil, or_false] at hb
    rcases hb with rfl | rfl | rfl | rfl
    · exact ⟨_, bracket_cents_lo_hi _ _ _ _ k 27600 0 1 rfl (by norm_num) (by norm_num)
        (by norm_num)⟩
    · exact ⟨_, bracket_cents_lo_hi _ _ _ _ k 138100 27600 2 rfl (by norm_num) (by norm_num)
        (by norm_num)⟩
    · exact ⟨_, bracket_cents_lo_hi _ _ _ _ k 250000 138100 3 rfl (by norm_num) (by norm_num)
        (by norm_num)⟩
    · exact ⟨_, bracket_cents_le _ _ _ _ k 250000 4 rfl hk (by norm_num) (by norm_num)⟩
  | LAVAL =>
    simp only [TRANSFER_TAX_TABLES, List.mem_cons, List.not_mem_nil, or_false] at hb
    rcases hb with rfl | rfl | rfl | rfl
    · exact ⟨_, bracket_cents_lo_hi _ _ _ _ k 27600 0 1 rfl (by norm_num) (by norm_num)
        (by norm_num)⟩
    · exact ⟨_, bracket_cents_lo_hi _ _ _ _ k 138100 27600 2 rfl (by norm_num) (by norm_num)
        (by norm_num)⟩
    · exact ⟨_, bracket_cents_lo_hi _ _ _ _ k 250000 138100 3 rfl (by norm_num) (by norm_num)
        (by norm_num)⟩
    · exact ⟨_, bracket_cents_le _ _ _ _ k 250000 4 rfl hk (by norm_num) (by norm_num)⟩
  | LONGUEUIL =>
    simp only [TRANSFER_TAX_TABLES, List.mem_cons, List.not_mem_nil, or_false] at hb
    rcases hb with rfl | rfl | rfl | rfl
    · exact ⟨_, bracket_cents_lo_hi _ _ _ _ k 27600 0 1 rfl (by norm_num) (by norm_num)
        (by norm_num)⟩
    · exact ⟨_, bracket_cents_lo_hi _ _ _ _ k 138100 27600 2 rfl (by norm_num) (by norm_num)
        (by norm_num)⟩
    · exact ⟨_, bracket_cents_lo_hi _ _ _ _ k 250000 138100 3 rfl (by norm_num) (by norm_num)
        (by norm_num)⟩
    · exact ⟨_, bracket_cents_le _ _ _ _ k 250000 4 rfl hk (by norm_num) (by norm_num)⟩
  | GATINEAU =>
    simp only [TRANSFER_TAX_TABLES, List.mem_cons, List.not_mem_nil, or_false] at hb
    rcases hb with rfl | rfl | rfl
    · exact ⟨_, bracket_cents_lo_hi _ _ _ _ k 27600 0 1 rfl (by norm_num) (by norm_num)
        (by norm_num)⟩
    · exact ⟨_, bracket_cents_lo_hi _ _ _ _ k 138100 27600 2 rfl (by norm_num) (by norm_num)
        (by norm_num)⟩
    · exact ⟨_, bracket_cents_le _ _ _ _ k 138100 3 rfl hk (by norm_num) (by norm_num)⟩
  | SHERBROOKE =>
    simp only [TRANSFER_TAX_TABLES, List.mem_cons, List.not_mem_nil, or_false] at hb
    rcases hb with rfl | rfl | rfl
    · exact ⟨_, bracket_cents_lo_hi _ _ _ _ k 27600 0 1 rfl (by norm_num) (by norm_num)
        (by norm_num)⟩
    · exact ⟨_, bracket_cents_lo_hi _ _ _ _ k 138100 27600 2 rfl (by norm_num) (by norm_num)
        (by norm_num)⟩
    · exact ⟨_, bracket_cents_le _ _ _ _ k 138100 3 rfl hk (by norm_num) (by norm_num)⟩
  | TROIS_RIVIERES =>
    simp only [TRANSFER_TAX_TABLES, List.mem_cons, List.not_mem_nil, or_false] at hb
    rcases hb with rfl | rfl | rfl
    · exact ⟨_, bracket_cents_lo_hi _ _ _ _ k 27600 0 1 rfl (by norm_num) (by norm_num)
        (by norm_num)⟩
    · exact ⟨_, bracket_cents_lo_hi _ _ _ _ k 138100 27600 2 rfl (by norm_num) (by norm_num)
        (by norm_num)⟩
    · exact ⟨_, bracket_cents_le _ _ _ _ k 138100 3 rfl hk (by norm_num) (by norm_num)⟩
  | OTHER_QC =>
    simp only [TRANSFER_TAX_TABLES, List.mem_cons, List.not_mem_nil, or_false] at hb
    rcases hb with rfl | rfl | rfl
    · exact ⟨_, bracket_cents_lo_hi _ _ _ _ k 27600 0 1 rfl (by norm_num) (by norm_num)
        (by norm_num)⟩
    · exact ⟨_, bracket_cents_lo_hi _ _ _ _ k 138100 27600 2 rfl (by norm_num) (by norm_num)
        (by norm_num)⟩
    · exact ⟨_, bracket_cents_le _ _ _ _ k 138100 3 rfl hk (by norm_num) (by norm_num)⟩

lemma additional_cents (m : MunicipalityCode) (k : ℤ) :
    ∃ A : ℤ,
      additionalTaxOf (TRANSFER_TAX_TABLES m).additional_rates (2 * (k : ℚ)) = (A : ℚ) / 100 := by
  cases m
  case MONTREAL =>
    simp only [TRANSFER_TAX_TABLES, additionalTaxOf, List.map_cons, List.map_nil,
      List.sum_cons, List.sum_nil]
    by_cases h : (2136600 : ℚ) < 2 * (k : ℚ)
    · refine ⟨k - 1068300, ?_⟩
      rw [if_pos h]
      push_cast
      ring
    · refine ⟨0, ?_⟩
      rw [if_neg h]
      norm_num
  all_goals exact ⟨0, by norm_num [TRANSFER_TAX_TABLES, additionalTaxOf]⟩

lemma bracketsTax_cents (bs : List TaxBracket) (p : ℚ)
    (h : ∀ b ∈ bs, ∃ n : ℤ, (min p b.hi - b.lo) * b.rate = (n : ℚ) / 100) :
    ∃ N : ℤ, bracketsTax bs p = (N : ℚ) / 100 := by
  induction bs with
  | nil => exact ⟨0, by simp [bracketsTax]⟩
  | cons b rest ih =>
    obtain ⟨N, hN⟩ := ih (fun x hx => h x (by simp [hx]))
    obtain ⟨n, hn⟩ := h b (by simp)
    simp only [bracketsTax]
    by_cases h1 : p ≤ b.lo
    · exact ⟨0, by rw [if_pos h1]; norm_num⟩
    · rw [if_neg h1]
      by_cases h2 : 0 < min p b.hi - b.lo
      · refine ⟨n + N, ?_⟩
        rw [if_pos h2, hn, hN]
        push_cast
        ring
      · refine ⟨N, ?_⟩
        rw [if_neg h2, hN]
        ring

lemma breakdownItems_sum_eq (bs : List TaxBracket) (p : ℚ)
    (h : ∀ b ∈ bs, ∃ n : ℤ, (min p b.hi - b.lo) * b.rate = (n : ℚ) / 100) :
    ((breakdownItems bs p).map (fun i => i.tax)).sum = bracketsTax bs p := by
  induction bs with
  | nil => simp [breakdownItems, bracketsTax]
  | cons b rest ih =>
    have ihr := ih (fun x hx => h x (by simp [hx]))
    obtain ⟨n, hn⟩ := h b (by simp)
    simp only [breakdownItems, bracketsTax]
    by_cases h1 : p ≤ b.lo
    · rw [if_pos h1, if_pos h1]
      simp
    · rw [if_neg h1, if_neg h1]
      by_cases h2 : 0 < min p b.hi - b.lo
      · rw [if_pos h2, if_pos h2]
        simp only [List.map_cons, List.sum_cons]
        rw [hn, roundHalfEven2_cents, ← hn, ihr]
      · rw [if_neg h2, if_neg h2, ihr]
        ring

/-- C1 (counterexample): the scalar total and the breakdown total disagree at
Montréal price 1000001.  The fifth bracket contributes an exact tax of
`1 × 2.5% = 0.025`; `calculate_transfer_tax` keeps it exact and rounds the
final sum `15733.025` half-up to `15733.03`, while `get_transfer_tax_breakdown`
first quantizes the line item half-even to `0.02` and totals `15733.02`. -/
theorem transfer_tax_breakdown_mismatch_at_1000001 :
    calculate_transfer_tax 1000001 MunicipalityCode.MONTREAL = 1573303/100 ∧
    (get_transfer_tax_breakdown 1000001 MunicipalityCode.MONTREAL).total_tax = 1573302/100 ∧
    calculate_transfer_tax 1000001 MunicipalityCode.MONTREAL ≠
      (get_transfer_tax_breakdown 1000001 MunicipalityCode.MONTREAL).total_tax := by
  refine ⟨?_, ?_, ?_⟩
  · norm_num [calculate_transfer_tax, TRANSFER_TAX_TABLES, bracketsTax, additionalTaxOf,
      roundHalfUp2]
  · norm_num [get_transfer_tax_breakdown, TRANSFER_TAX_TABLES, breakdownItems,
      additionalTaxOf, roundHalfEven2]
  · norm_num [calculate_transfer_tax, get_transfer_tax_breakdown, TRANSFER_TAX_TABLES,
      bracketsTax, breakdownItems, additionalTaxOf, roundHalfUp2, roundHalfEven2]

/-- C1 (amended): for every municipality and every purchase price that is an
even number of dollars and does not exceed the tables' top bracket bound
999999999, every per-bracket tax is an exact number of cents, so the
half-even line-item quantization is the identity and the scalar total of
`calculate_transfer_tax` agrees exactly with `total_tax` of
`get_transfer_tax_breakdown`, which in turn equals the sum of the per-bracket
line-item taxes plus `additional_tax`. -/
theorem transfer_tax_breakdown_agree_even (m : MunicipalityCode) (k : ℤ)
    (hk : 2 * (k : ℚ) ≤ 999999999) :
    calculate_transfer_tax (2 * (k : ℚ)) m =
      (get_transfer_tax_breakdown (2 * (k : ℚ)) m).total_tax ∧
    (get_transfer_tax_breakdown (2 * (k : ℚ)) m).total_tax =
      ((get_transfer_tax_breakdown (2 * (k : ℚ)) m).brackets.map (fun b => b.tax)).sum +
        (get_transfer_tax_breakdown (2 * (k : ℚ)) m).additional_tax := by
  obtain ⟨N, hN⟩ := bracketsTax_cents (TRANSFER_TAX_TABLES m).brackets (2 * (k : ℚ))
    (tables_cents m k hk)
  obtain ⟨A, hA⟩ := additional_cents m k
  have hsum := breakdownItems_sum_eq (TRANSFER_TAX_TABLES m).brackets (2 * (k : ℚ))
    (tables_cents m k hk)
  have hNA : (N : ℚ) / 100 + (A : ℚ) / 100 = ((N + A : ℤ) : ℚ) / 100 := by
    push_cast
    ring
  constructor
  · simp only [calculate_transfer_tax, get_transfer_tax_breakdown]
    rw [hsum, hN, hA, hNA, roundHalfUp2_cents, roundHalfEven2_cents]
  · simp only [get_transfer_tax_breakdown]
    rw [hsum, hN, hA, hNA, roundHalfEven2_cents, roundHalfEven2_cents]
    push_cast
    ring

/-- Witness for the amended C1 at the concrete even price 300000 (Montréal). -/
theorem transfer_tax_breakdown_agree_even_witness :
    calculate_transfer_tax 300000 MunicipalityCode.MONTREAL =
      (get_transfer_tax_breakdown 300000 MunicipalityCode.MONTREAL).total_tax := by
  have h := (transfer_tax_breakdown_agree_even MunicipalityCode.MONTREAL 150000
    (by norm_num)).1
  norm_num at h
  exact h

/-- C3: `calculate_transfer_tax(300000, MONTREAL)` is exactly 2733.00,
which is 0.5% of 58900 plus 1% of (294500 − 58900) plus 1.5% of
(300000 − 294500), i.e. 294.50 + 2356.00 + 82.50. -/
theorem transfer_tax_montreal_300000 :
    calculate_transfer_tax 300000 MunicipalityCode.MONTREAL = 2733 ∧
    (2733 : ℚ) = (5/1000) * 58900 + (1/100) * (294500 - 58900) +
      (15/1000) * (300000 - 294500) := by
  constructor
  · norm_num [calculate_transfer_tax, TRANSFER_TAX_TABLES, bracketsTax, additionalTaxOf,
      roundHalfUp2]
  · norm_num

/-- C4: for a fixed municipality, `calculate_transfer_tax` is monotonically
non-decreasing in the purchase price. -/
theorem calculate_transfer_tax_mono (m : MunicipalityCode) (p1 p2 : ℚ) (h : p1 ≤ p2) :
    calculate_transfer_tax p1 m ≤ calculate_transfer_tax p2 m := by
  unfold calculate_transfer_tax
  apply roundHalfUp2_mono
  · have h1 := bracketsTax_nonneg (TRANSFER_TAX_TABLES m).brackets p1 (brackets_rate_nonneg m)
    have h2 := additionalTaxOf_nonneg (TRANSFER_TAX_TABLES m).additional_rates p1
      (additional_rate_nonneg m)
    linarith
  · have h1 := bracketsTax_mono (TRANSFER_TAX_TABLES m).brackets (brackets_rate_nonneg m) h
    have h2 := additionalTaxOf_mono (TRANSFER_TAX_TABLES m).additional_rates
      (additional_rate_nonneg m) h
    linarith

/-- Witness for C4 at concrete prices 100000 ≤ 200000 in Montréal. -/
theorem calculate_transfer_tax_mono_witness :
    calculate_transfer_tax 100000 MunicipalityCode.MONTREAL ≤
      calculate_transfer_tax 200000 MunicipalityCode.MONTREAL :=
  calculate_transfer_tax_mono MunicipalityCode.MONTREAL 100000 200000 (by norm_num)

/-! ### Mortgage math (`mortgage.py`)

`convert_to_monthly_effective_rate` computes `(1 + r/2)**(1/6) - 1` with
binary floating point and converts the result back to `Decimal` via
`Decimal(str(...))`; `calculate_monthly_mortgage_payment` likewise evaluates
the annuity formula in floats (lines 57-68).  Their exact values are IEEE-754
artifacts, so both float cores are modelled as an abstract oracle `FloatModel`;
every theorem quantifies over all oracles, and therefore holds for the
particular values the Python floats produce. -/

structure FloatModel where
  effectiveMonthlyRate : ℚ → ℚ
  annuityPayment : ℚ → ℚ → ℕ → ℚ

/-- `calculate_monthly_mortgage_payment` (`mortgage.py` lines 34-68): 0 for
non-positive principal, straight-line `principal/(years*12)` rounded half-up
for non-positive rate, otherwise the float annuity payment rounded half-up. -/
def calculate_monthly_mortgage_payment (F : FloatModel)
    (principal nominal_annual_rate : ℚ) (amortization_years : ℕ) : ℚ :=
  if principal ≤ 0 then 0
  else if nominal_annual_rate ≤ 0 then
    roundHalfUp2 (principal / ((amortization_years : ℚ) * 12))
  else roundHalfUp2 (F.annuityPayment principal nominal_annual_rate amortization_years)

/-- `calculate_interest_only_payment` (`mortgage.py` lines 71-90). -/
def calculate_interest_only_payment (F : FloatModel)
    (principal nominal_annual_rate : ℚ) : ℚ :=
  if principal ≤ 0 ∨ nominal_annual_rate ≤ 0 then 0
  else roundHalfUp2 (principal * F.effectiveMonthlyRate nominal_annual_rate)

/-- `calculate_stress_test_rate` (`mortgage.py` lines 93-109):
`max(contract_rate + 0.02, 0.0525)`. -/
def calculate_stress_test_rate (contract_rate : ℚ) : ℚ :=
  max (contract_rate + 2/100) (525/10000)

/-- `calculate_dcr` (`mortgage.py` lines 112-129): `NOI / debt service`
rounded half-up, 0 when the debt service is non-positive. -/
def calculate_dcr (annual_noi annual_debt_service : ℚ) : ℚ :=
  if annual_debt_service ≤ 0 then 0
  else roundHalfUp2 (annual_noi / annual_debt_service)

/-! ### Mortgage insurance rule (`brrrr_engine.py` lines 40-87) -/

/-- `calculate_cmhc_premium`: ordered decision list returning
`(premium_amount, premium_rate, notes)`.  Note that the premium is quantized
by `premium.quantize(PRECISION)` (line 87), i.e. with the Decimal default
`ROUND_HALF_EVEN`, not half-up. -/
def calculate_cmhc_premium (loan_amount down_payment_percent : ℚ)
    (is_owner_occupied : Bool) (total_units : ℕ) (purchase_price : ℚ) :
    Option ℚ × Option ℚ × List String :=
  if 20/100 ≤ down_payment_percent then
    (none, none, ["Mise de fonds ≥ 20%: Aucune assurance SCHL requise"])
  else if !is_owner_occupied then
    (none, none, ["Investisseur non-occupant: Mise de fonds 20% minimum requise"])
  else if 4 < total_units then
    (none, none, ["5+ logements: Financement commercial requis"])
  else if 999999 < purchase_price then
    (none, none, ["Prix > 1M$: Non assurable SCHL, 20% minimum requis"])
  else if 15/100 ≤ down_payment_percent then
    (some (roundHalfEven2 (loan_amount * (28/1000))), some (28/1000),
     ["Prime SCHL 2.8%: Mise de fonds 15-19.99%"])
  else if 10/100 ≤ down_payment_percent then
    (some (roundHalfEven2 (loan_amount * (31/1000))), some (31/1000),
     ["Prime SCHL 3.1%: Mise de fonds 10-14.99%"])
  else
    (some (roundHalfEven2 (loan_amount * (4/100))), some (4/100),
     ["Prime SCHL 4.0%: Mise de fonds 5-9.99%"])

lemma roundHalfEven2_isCents (x : ℚ) : ∃ n : ℤ, roundHalfEven2 x = (n : ℚ) / 100 := by
  unfold roundHalfEven2
  by_cases h1 : x * 100 - ⌊x * 100⌋ < 1/2
  · rw [if_pos h1]
    exact ⟨⌊x * 100⌋, rfl⟩
  · rw [if_neg h1]
    by_cases h2 : 1/2 < x * 100 - ⌊x * 100⌋
    · rw [if_pos h2]
      exact ⟨⌊x * 100⌋ + 1, by push_cast; ring⟩
    · rw [if_neg h2]
      by_cases h3 : Even ⌊x * 100⌋
      · rw [if_pos h3]
        exact ⟨⌊x * 100⌋, rfl⟩
      · rw [if_neg h3]
        exact ⟨⌊x * 100⌋ + 1, by push_cast; ring⟩

/-- C6: no CMHC premium whenever the down payment is at least 20%, for every
combination of the other arguments. -/
theorem cmhc_none_when_down_payment_ge_20pct (loan_amount down_payment_percent : ℚ)
    (is_owner_occupied : Bool) (total_units : ℕ) (purchase_price : ℚ)
    (h : 20/100 ≤ down_payment_percent) :
    (calculate_cmhc_premium loan_amount down_payment_percent is_owner_occupied
      total_units purchase_price).1 = none := by
  unfold calculate_cmhc_premium
  rw [if_pos h]

/-- Witness for C6 at a concrete input (20% down, non-occupant, 6 units). -/
theorem cmhc_none_when_down_payment_ge_20pct_witness :
    (calculate_cmhc_premium 240000 (20/100) false 6 300000).1 = none :=
  cmhc_none_when_down_payment_ge_20pct 240000 (20/100) false 6 300000 (by norm_num)

/-- C2 (counterexample): `calculate_cmhc_premium` does not round its premium
half-up.  At `loan_amount = 100.125`, `down payment 5%`, the exact premium is
`100.125 × 4% = 4.005`; the function returns 4.00 (Decimal default half-even)
while round-half-up to 2 decimals gives 4.01. -/
theorem cmhc_premium_not_rounded_half_up :
    (calculate_cmhc_premium (801/8) (1/20) true 1 500000).1 = some 4 ∧
    roundHalfUp2 ((801/8) * (4/100)) = 401/100 ∧
    (4 : ℚ) ≠ 401/100 := by
  refine ⟨?_, ?_, by norm_num⟩
  · norm_num [calculate_cmhc_premium, roundHalfEven2, Int.even_iff]
  · norm_num [roundHalfUp2]

/-- C2 (amended, for the cited insurance function): whenever
`calculate_cmhc_premium` returns a premium, that premium is
`loan_amount × rate` quantized to 2 decimal places exactly once, at the
function boundary, with the Decimal default rounding `ROUND_HALF_EVEN`
(not half-up), and is therefore an exact number of cents. -/
theorem cmhc_premium_rounded_once_half_even (loan_amount down_payment_percent : ℚ)
    (is_owner_occupied : Bool) (total_units : ℕ) (purchase_price : ℚ) (p r : ℚ)
    (hp : (calculate_cmhc_premium loan_amount down_payment_percent is_owner_occupied
      total_units purchase_price).1 = some p)
    (hr : (calculate_cmhc_premium loan_amount down_payment_percent is_owner_occupied
      total_units purchase_price).2.1 = some r) :
    p = roundHalfEven2 (loan_amount * r) ∧ ∃ n : ℤ, p = (n : ℚ) / 100 := by
  unfold calculate_cmhc_premium at hp hr
  split_ifs at hp hr
  · have hr' : (28/1000 : ℚ) = r := by simpa using hr
    subst hr'
    have hp' : roundHalfEven2 (loan_amount * (28/1000)) = p := by simpa using hp
    exact ⟨hp'.symm, hp' ▸ roundHalfEven2_isCents _⟩
  · have hr' : (31/1000 : ℚ) = r := by simpa using hr
    subst hr'
    have hp' : roundHalfEven2 (loan_amount * (31/1000)) = p := by simpa using hp
    exact ⟨hp'.symm, hp' ▸ roundHalfEven2_isCents _⟩
  · have hr' : (4/100 : ℚ) = r := by simpa using hr
    subst hr'
    have hp' : roundHalfEven2 (loan_amount * (4/100)) = p := by simpa using hp
    exact ⟨hp'.symm, hp' ▸ roundHalfEven2_isCents _⟩

/-- Witness for the amended C2: 10% down on a 100000 loan yields premium
3100.00 = `roundHalfEven2(100000 × 3.1%)`. -/
theorem cmhc_premium_rounded_once_half_even_witness :
    (3100 : ℚ) = roundHalfEven2 (100000 * (31/1000)) ∧
    ∃ n : ℤ, (3100 : ℚ) = (n : ℚ) / 100 :=
  cmhc_premium_rounded_once_half_even 100000 (1/10) true 2 500000 3100 (31/1000)
    (by norm_num [calculate_cmhc_premium, roundHalfEven2, Int.even_iff])
    (by norm_num [calculate_cmhc_premium])

/-! ### BRRRR engine (`brrrr_engine.py`) -/

/-- `RenoFinancingType` enum from `financial.py`. -/
inductive RenoFinancingType where
  | CASH
  | HELOC
  | PERSONAL_LOC
  | PRIVATE_LOAN
deriving DecidableEq, Repr

/-- `PropertyFinancialsInput` from `financial.py` (field order preserved;
pydantic range validation happens at the boundary layer, so the fields are
plain rationals here). -/
structure PropertyFinancialsInput where
  purchase_price : ℚ
  down_payment_percent : ℚ
  municipality : MunicipalityCode
  notary_fees : ℚ
  inspection_fees : ℚ
  other_closing_costs : ℚ
  mortgage_rate : ℚ
  amortization_years : ℕ
  renovation_budget : ℚ
  renovation_contingency_percent : ℚ
  renovation_duration_months : ℕ
  reno_financing_type : RenoFinancingType
  heloc_rate_for_reno : Option ℚ
  projected_monthly_rent : ℚ
  vacancy_rate_percent : ℚ
  municipal_taxes : ℚ
  school_taxes : ℚ
  insurance_annual : ℚ
  maintenance_percent : ℚ
  management_percent : ℚ
  utilities_monthly : ℚ
  after_repair_value : ℚ
  refinance_rate : ℚ
  refinance_amort_years : ℕ
  total_units : ℕ
  is_owner_occupied : Bool

/-- BSIF constants (`brrrr_engine.py` lines 35-37). -/
def BSIF_HELOC_ROTATING_LTV_MAX : ℚ := 65/100

def BSIF_REFINANCE_LTV_MAX : ℚ := 80/100

def BSIF_MIN_DCR_COMMERCIAL : ℚ := 125/100

/-! Phase 1 locals of `calculate_brrrr` (lines 107-160), one definition per
Python local so the engine's internal quantities can be named in theorems. -/

def down_payment_amount (i : PropertyFinancialsInput) : ℚ :=
  i.purchase_price * i.down_payment_percent

def loan_amount (i : PropertyFinancialsInput) : ℚ :=
  i.purchase_price - down_payment_amount i

def cmhc_result (i : PropertyFinancialsInput) : Option ℚ × Option ℚ × List String :=
  calculate_cmhc_premium (loan_amount i) i.down_payment_percent i.is_owner_occupied
    i.total_units i.purchase_price

/-- Line 132-134: `if cmhc_premium: initial_mortgage_amount += cmhc_premium`.
Python's truthiness skips the addition only when the premium is `None` or
exactly 0, and adding 0 is the identity, so `Option.getD 0` is extensionally
the same. -/
def initial_mortgage_amount (i : PropertyFinancialsInput) : ℚ :=
  loan_amount i + ((cmhc_result i).1.getD 0)

def initial_monthly_payment (F : FloatModel) (i : PropertyFinancialsInput) : ℚ :=
  calculate_monthly_mortgage_payment F (initial_mortgage_amount i) i.mortgage_rate
    i.amortization_years

def total_closing_costs (i : PropertyFinancialsInput) : ℚ :=
  calculate_transfer_tax i.purchase_price i.municipality + i.notary_fees +
    i.inspection_fees + i.other_closing_costs

def total_cash_at_acquisition (i : PropertyFinancialsInput) : ℚ :=
  down_payment_amount i + total_closing_costs i

/-! Phase 2 locals (lines 167-193). -/

def contingency_amount (i : PropertyFinancialsInput) : ℚ :=
  i.renovation_budget * (i.renovation_contingency_percent / 100)

def total_reno_budget (i : PropertyFinancialsInput) : ℚ :=
  i.renovation_budget + contingency_amount i

/-- Lines 185-191: the HELOC carrying interest is added only when the
financing type is HELOC and `heloc_rate_for_reno` is truthy (not `None` and
not 0). -/
def monthly_heloc_interest (F : FloatModel) (i : PropertyFinancialsInput) : ℚ :=
  match i.heloc_rate_for_reno with
  | some r =>
    if i.reno_financing_type = RenoFinancingType.HELOC ∧ r ≠ 0 then
      calculate_interest_only_payment F (total_reno_budget i / 2) r
    else 0
  | none => 0

def monthly_carry_cost (F : FloatModel) (i : PropertyFinancialsInput) : ℚ :=
  initial_monthly_payment F i + i.municipal_taxes / 12 + i.school_taxes / 12 +
    i.insurance_annual / 12 + monthly_heloc_interest F i

def total_carry_cost (F : FloatModel) (i : PropertyFinancialsInput) : ℚ :=
  monthly_carry_cost F i * (i.renovation_duration_months : ℚ)

/-! Phase 3 locals (lines 209-237). -/

def vacancy_loss (i : PropertyFinancialsInput) : ℚ :=
  i.projected_monthly_rent * (i.vacancy_rate_percent / 100)

def effective_gross_income (i : PropertyFinancialsInput) : ℚ :=
  i.projected_monthly_rent - vacancy_loss i

def total_operating_expenses (i : PropertyFinancialsInput) : ℚ :=
  i.municipal_taxes / 12 + i.school_taxes / 12 + i.insurance_annual / 12 +
    effective_gross_income i * (i.maintenance_percent / 100) +
    effective_gross_income i * (i.management_percent / 100) + i.utilities_monthly

def monthly_noi (i : PropertyFinancialsInput) : ℚ :=
  effective_gross_income i - total_operating_expenses i

def annual_noi (i : PropertyFinancialsInput) : ℚ :=
  monthly_noi i * 12

/-! Phase 4 locals (lines 258-294). -/

def max_total_borrowing (i : PropertyFinancialsInput) : ℚ :=
  i.after_repair_value * BSIF_REFINANCE_LTV_MAX

def max_rotating (i : PropertyFinancialsInput) : ℚ :=
  i.after_repair_value * BSIF_HELOC_ROTATING_LTV_MAX

def heloc_portion (i : PropertyFinancialsInput) : ℚ :=
  min (max_total_borrowing i) (max_rotating i)

def amortized_portion (i : PropertyFinancialsInput) : ℚ :=
  max_total_borrowing i - heloc_portion i

def monthly_heloc_payment (F : FloatModel) (i : PropertyFinancialsInput) : ℚ :=
  calculate_interest_only_payment F (heloc_portion i) i.refinance_rate

def monthly_mortgage_payment_refi (F : FloatModel) (i : PropertyFinancialsInput) : ℚ :=
  if 0 < amortized_portion i then
    calculate_monthly_mortgage_payment F (amortized_portion i) i.refinance_rate
      i.refinance_amort_years
  else 0

def total_monthly_debt_service (F : FloatModel) (i : PropertyFinancialsInput) : ℚ :=
  monthly_heloc_payment F i + monthly_mortgage_payment_refi F i

/-- Lines 286-288: `appraisal_fee = 400`, `legal_fees = 1200`. -/
def total_refi_costs : ℚ := 400 + 1200

def total_debt_before_refi (i : PropertyFinancialsInput) : ℚ :=
  initial_mortgage_amount i + total_reno_budget i

def gross_cash_out (i : PropertyFinancialsInput) : ℚ :=
  max_total_borrowing i - total_debt_before_refi i

def net_cash_out (i : PropertyFinancialsInput) : ℚ :=
  gross_cash_out i - total_refi_costs

/-! KPI locals (lines 317-357). -/

def total_cash_invested (F : FloatModel) (i : PropertyFinancialsInput) : ℚ :=
  total_cash_at_acquisition i + total_reno_budget i + total_carry_cost F i

def cash_extracted (i : PropertyFinancialsInput) : ℚ :=
  max 0 (net_cash_out i)

def equity_left_in_deal (F : FloatModel) (i : PropertyFinancialsInput) : ℚ :=
  max 0 (total_cash_invested F i - cash_extracted i)

def monthly_cashflow (F : FloatModel) (i : PropertyFinancialsInput) : ℚ :=
  monthly_noi i - total_monthly_debt_service F i

def annual_cashflow (F : FloatModel) (i : PropertyFinancialsInput) : ℚ :=
  monthly_cashflow F i * 12

/-- Line 326: `is_infinite_return = equity_left_in_deal <= 0`. -/
def is_infinite_return (F : FloatModel) (i : PropertyFinancialsInput) : Bool :=
  equity_left_in_deal F i ≤ 0

/-- Lines 328-333: the 999999 sentinel, otherwise the ratio quantized with
the Decimal default rounding. -/
def cash_on_cash (F : FloatModel) (i : PropertyFinancialsInput) : ℚ :=
  if equity_left_in_deal F i ≤ 0 then 999999
  else roundHalfEven2 (annual_cashflow F i / equity_left_in_deal F i * 100)

def cap_rate (i : PropertyFinancialsInput) : ℚ :=
  if 0 < i.after_repair_value then
    roundHalfEven2 (annual_noi i / i.after_repair_value * 100)
  else 0

def gross_rent_multiplier (i : PropertyFinancialsInput) : ℚ :=
  if 0 < i.projected_monthly_rent then
    roundHalfEven2 (i.purchase_price / (i.projected_monthly_rent * 12))
  else 0

def brrrr_dcr (F : FloatModel) (i : PropertyFinancialsInput) : ℚ :=
  calculate_dcr (annual_noi i) (total_monthly_debt_service F i * 12)

def meets_min_dcr (F : FloatModel) (i : PropertyFinancialsInput) : Bool :=
  BSIF_MIN_DCR_COMMERCIAL ≤ brrrr_dcr F i

def stress_test_rate (i : PropertyFinancialsInput) : ℚ :=
  calculate_stress_test_rate i.refinance_rate

def monthly_payment_stress (F : FloatModel) (i : PropertyFinancialsInput) : ℚ :=
  calculate_monthly_mortgage_payment F (max_total_borrowing i) (stress_test_rate i)
    i.refinance_amort_years

def cashflow_at_stress (F : FloatModel) (i : PropertyFinancialsInput) : ℚ :=
  monthly_noi i - monthly_payment_stress F i

def passes_stress_test (F : FloatModel) (i : PropertyFinancialsInput) : Bool :=
  0 ≤ cashflow_at_stress F i

/-! Warning messages (lines 349, 360, 364, 367).  The Python strings
interpolate numeric values through f-strings; the interpolation is
display-only and not modelled — no theorem depends on the text. -/

def dcr_warning : String := "DCR inférieur au minimum de 1.25"

def stress_warning : String := "Cashflow négatif au taux du stress test"

def negative_cashflow_warning : String :=
  "Cashflow négatif - Ce projet coûte de l'argent chaque mois"

def low_coc_warning : String := "Cash-on-Cash inférieur à 5% - Rendement faible"

/-- The warnings list accumulated by `calculate_brrrr`, in declaration order:
CMHC notes (line 130), low DCR for 5+ units (348-349), failed stress test
(359-360), negative cashflow (363-364), low cash-on-cash (366-367). -/
def brrrr_warnings (F : FloatModel) (i : PropertyFinancialsInput) : List String :=
  (cmhc_result i).2.2 ++
    (if 5 ≤ i.total_units ∧ ¬ (BSIF_MIN_DCR_COMMERCIAL ≤ brrrr_dcr F i) then [dcr_warning]
     else []) ++
    (if ¬ (0 ≤ cashflow_at_stress F i) then [stress_warning] else []) ++
    (if monthly_cashflow F i < 0 then [negative_cashflow_warning] else []) ++
    (if cash_on_cash F i < 5 ∧ ¬ (equity_left_in_deal F i ≤ 0) then [low_coc_warning]
     else [])

/-- `AcquisitionResult` from `financial.py`. -/
structure AcquisitionResult where
  purchase_price : ℚ
  down_payment_amount : ℚ
  down_payment_percent : ℚ
  transfer_tax : ℚ
  notary_fees : ℚ
  inspection_fees : ℚ
  other_closing_costs : ℚ
  cmhc_premium : Option ℚ
  cmhc_premium_percent : Option ℚ
  total_closing_costs : ℚ
  initial_mortgage_amount : ℚ
  initial_monthly_payment : ℚ
  total_cash_at_acquisition : ℚ

/-- `RenovationResult` from `financial.py`. -/
structure RenovationResult where
  budget_base : ℚ
  contingency : ℚ
  total_budget : ℚ
  duration_months : ℕ
  financing_type : RenoFinancingType
  monthly_carry_cost : ℚ
  total_carry_cost : ℚ

/-- `RentalResult` from `financial.py`. -/
structure RentalResult where
  gross_monthly_rent : ℚ
  effective_gross_income : ℚ
  vacancy_loss : ℚ
  municipal_taxes : ℚ
  school_taxes : ℚ
  insurance : ℚ
  maintenance : ℚ
  management : ℚ
  utilities : ℚ
  total_operating_expenses : ℚ
  monthly_noi : ℚ
  annual_noi : ℚ

/-- `RefinanceResult` from `financial.py`. -/
structure RefinanceResult where
  after_repair_value : ℚ
  max_ltv_total : ℚ
  max_ltv_rotating : ℚ
  new_mortgage_amount : ℚ
  heloc_portion_amount : ℚ
  amortized_portion_amount : ℚ
  monthly_mortgage_payment : ℚ
  monthly_heloc_payment : ℚ
  total_monthly_debt_service : ℚ
  appraisal_fee : ℚ
  legal_fees : ℚ
  total_refinance_costs : ℚ
  gross_cash_out : ℚ
  net_cash_out : ℚ

/-- `KPIsResult` from `financial.py`. -/
structure KPIsResult where
  total_cash_invested : ℚ
  cash_extracted_at_refi : ℚ
  equity_left_in_deal : ℚ
  monthly_noi : ℚ
  monthly_debt_service : ℚ
  monthly_cashflow : ℚ
  annual_cashflow : ℚ
  cash_on_cash_return : ℚ
  return_on_equity : ℚ
  cap_rate : ℚ
  gross_rent_multiplier : ℚ
  is_infinite_return : Bool
  debt_coverage_ratio : ℚ
  meets_min_dcr : Bool
  stress_test_rate : ℚ
  monthly_payment_at_stress_rate : ℚ
  passes_stress_test : Bool

/-- `ValidationResult` from `financial.py`. -/
structure ValidationResult where
  is_valid : Bool
  warnings : List String
  errors : List String

/-- `BrrrrCalculationResult` from `financial.py`. -/
structure BrrrrCalculationResult where
  acquisition : AcquisitionResult
  renovation : RenovationResult
  rental : RentalResult
  refinance : RefinanceResult
  kpis : KPIsResult
  validation : ValidationResult

/-- `calculate_brrrr` (`brrrr_engine.py` lines 90-402), assembled from the
phase locals above; each result field carries the quantization applied at
construction in the source (`quantize(PRECISION)`, i.e. the Decimal default
`ROUND_HALF_EVEN`).  The local `errors` list is never appended to, so
`errors = []` and `is_valid = (len(errors) == 0)`. -/
def calculate_brrrr (F : FloatModel) (i : PropertyFinancialsInput) :
    BrrrrCalculationResult :=
  ⟨⟨i.purchase_price, roundHalfEven2 (down_payment_amount i), i.down_payment_percent,
    calculate_transfer_tax i.purchase_price i.municipality, i.notary_fees,
    i.inspection_fees, i.other_closing_costs, (cmhc_result i).1, (cmhc_result i).2.1,
    roundHalfEven2 (total_closing_costs i), roundHalfEven2 (initial_mortgage_amount i),
    initial_monthly_payment F i, roundHalfEven2 (total_cash_at_acquisition i)⟩,
   ⟨i.renovation_budget, roundHalfEven2 (contingency_amount i),
    roundHalfEven2 (total_reno_budget i), i.renovation_duration_months,
    i.reno_financing_type, roundHalfEven2 (monthly_carry_cost F i),
    roundHalfEven2 (total_carry_cost F i)⟩,
   ⟨i.projected_monthly_rent, roundHalfEven2 (effective_gross_income i),
    roundHalfEven2 (vacancy_loss i), roundHalfEven2 (i.municipal_taxes / 12),
    roundHalfEven2 (i.school_taxes / 12), roundHalfEven2 (i.insurance_annual / 12),
    roundHalfEven2 (effective_gross_income i * (i.maintenance_percent / 100)),
    roundHalfEven2 (effective_gross_income i * (i.management_percent / 100)),
    i.utilities_monthly, roundHalfEven2 (total_operating_expenses i),
    roundHalfEven2 (monthly_noi i), roundHalfEven2 (annual_noi i)⟩,
   ⟨i.after_repair_value, BSIF_REFINANCE_LTV_MAX, BSIF_HELOC_ROTATING_LTV_MAX,
    roundHalfEven2 (max_total_borrowing i), roundHalfEven2 (heloc_portion i),
    roundHalfEven2 (amortized_portion i), monthly_mortgage_payment_refi F i,
    monthly_heloc_payment F i, roundHalfEven2 (total_monthly_debt_service F i),
    400, 1200, total_refi_costs, roundHalfEven2 (gross_cash_out i),
    roundHalfEven2 (net_cash_out i)⟩,
   ⟨roundHalfEven2 (total_cash_invested F i), roundHalfEven2 (cash_extracted i),
    roundHalfEven2 (equity_left_in_deal F i), roundHalfEven2 (monthly_noi i),
    roundHalfEven2 (total_monthly_debt_service F i),
    roundHalfEven2 (monthly_cashflow F i), roundHalfEven2 (annual_cashflow F i),
    cash_on_cash F i, cash_on_cash F i, cap_rate i, gross_rent_multiplier i,
    is_infinite_return F i, brrrr_dcr F i, meets_min_dcr F i, stress_test_rate i,
    monthly_payment_stress F i, passes_stress_test F i⟩,
   ⟨List.length ([] : List String) == 0, brrrr_warnings F i, ([] : List String)⟩⟩

/-! ### HELOC capacity (`brrrr_engine.py` lines 405-445) -/

/-- `HelocCapacityInput` from `financial.py`. -/
structure HelocCapacityInput where
  current_property_value : ℚ
  current_mortgage_balance : ℚ
  current_heloc_balance : ℚ

/-- `HelocCapacityResult` from `financial.py`. -/
structure HelocCapacityResult where
  max_ltv_total : ℚ
  max_ltv_rotating : ℚ
  max_total_borrowing : ℚ
  max_rotating_credit : ℚ
  total_equity : ℚ
  available_equity_at_rotating : ℚ
  available_equity_at_total : ℚ
  recommended_heloc_limit : ℚ
  can_access_rotating : Bool
  current_ltv : ℚ
  after_heloc_ltv : ℚ

/-! Locals of `calculate_heloc_capacity`, one definition per Python local. -/

def heloc_total_current_debt (inp : HelocCapacityInput) : ℚ :=
  inp.current_mortgage_balance + inp.current_heloc_balance

def heloc_current_ltv (inp : HelocCapacityInput) : ℚ :=
  if 0 < inp.current_property_value then
    heloc_total_current_debt inp / inp.current_property_value
  else 0

def heloc_max_total_borrowing (inp : HelocCapacityInput) : ℚ :=
  inp.current_property_value * BSIF_REFINANCE_LTV_MAX

def heloc_max_rotating_credit (inp : HelocCapacityInput) : ℚ :=
  inp.current_property_value * BSIF_HELOC_ROTATING_LTV_MAX

def heloc_total_equity (inp : HelocCapacityInput) : ℚ :=
  inp.current_property_value - heloc_total_current_debt inp

def heloc_available_at_rotating (inp : HelocCapacityInput) : ℚ :=
  max 0 (heloc_max_rotating_credit inp - heloc_total_current_debt inp)

def heloc_available_at_total (inp : HelocCapacityInput) : ℚ :=
  max 0 (heloc_max_total_borrowing inp - heloc_total_current_debt inp)

def heloc_can_access_rotating (inp : HelocCapacityInput) : Bool :=
  heloc_total_current_debt inp ≤ heloc_max_rotating_credit inp

def heloc_after_debt (inp : HelocCapacityInput) : ℚ :=
  heloc_total_current_debt inp + heloc_available_at_total inp

def heloc_after_ltv (inp : HelocCapacityInput) : ℚ :=
  if 0 < inp.current_property_value then heloc_after_debt inp / inp.current_property_value
  else 0

/-- `calculate_heloc_capacity` (`brrrr_engine.py` lines 405-445).
`recommended_heloc_limit = available_at_rotating if can_access_rotating else 0`
(line 428); monetary fields quantized to 2 decimals, LTVs to 4, all with the
Decimal default rounding. -/
def calculate_heloc_capacity (inp : HelocCapacityInput) : HelocCapacityResult :=
  ⟨BSIF_REFINANCE_LTV_MAX, BSIF_HELOC_ROTATING_LTV_MAX,
   roundHalfEven2 (heloc_max_total_borrowing inp),
   roundHalfEven2 (heloc_max_rotating_credit inp),
   roundHalfEven2 (heloc_total_equity inp),
   roundHalfEven2 (heloc_available_at_rotating inp),
   roundHalfEven2 (heloc_available_at_total inp),
   roundHalfEven2
     (if heloc_total_current_debt inp ≤ heloc_max_rotating_credit inp then
        heloc_available_at_rotating inp
      else 0),
   heloc_can_access_rotating inp,
   roundHalfEven4 (heloc_current_ltv inp),
   roundHalfEven4 (heloc_after_ltv inp)⟩

/-! ### Quick metrics (`brrrr_engine.py` lines 448-491) -/

/-- `QuickMetrics` from `financial.py`. -/
structure QuickMetrics where
  cash_on_cash : ℚ
  monthly_cashflow : ℚ
  cap_rate : ℚ
  is_infinite_return : Bool
  total_investment : ℚ

/-! Locals of `quick_brrrr_metrics`, one definition per Python local. -/

def quick_total_investment (purchase_price renovation_budget : ℚ) : ℚ :=
  purchase_price * (20/100) + (purchase_price * (2/100) + 5000) + renovation_budget

def quick_annual_noi (monthly_rent : ℚ) : ℚ :=
  (monthly_rent * 12) * (70/100)

def quick_annual_debt_service (F : FloatModel) (arv mortgage_rate : ℚ) : ℚ :=
  calculate_monthly_mortgage_payment F (arv * (80/100)) mortgage_rate 25 * 12

def quick_annual_cashflow (F : FloatModel) (monthly_rent arv mortgage_rate : ℚ) : ℚ :=
  quick_annual_noi monthly_rent - quick_annual_debt_service F arv mortgage_rate

def quick_cash_out (purchase_price renovation_budget arv : ℚ) : ℚ :=
  arv * (80/100) - ((purchase_price * (80/100)) + renovation_budget)

def quick_equity_left (purchase_price renovation_budget arv : ℚ) : ℚ :=
  max 0 (quick_total_investment purchase_price renovation_budget -
    quick_cash_out purchase_price renovation_budget arv)

/-- `quick_brrrr_metrics` (`brrrr_engine.py` lines 448-491): fixed 20% down,
2%+5000 closing costs, 70% NOI ratio, 80% refinance LTV, 25-year
amortization; same 999999 sentinel convention as `calculate_brrrr`. -/
def quick_brrrr_metrics (F : FloatModel)
    (purchase_price renovation_budget monthly_rent arv mortgage_rate : ℚ) : QuickMetrics :=
  ⟨if 0 < quick_equity_left purchase_price renovation_budget arv then
      roundHalfEven2 (quick_annual_cashflow F monthly_rent arv mortgage_rate /
        quick_equity_left purchase_price renovation_budget arv * 100)
    else 999999,
   roundHalfEven2 (quick_annual_cashflow F monthly_rent arv mortgage_rate / 12),
   if 0 < arv then roundHalfEven2 (quick_annual_noi monthly_rent / arv * 100) else 0,
   !(0 < quick_equity_left purchase_price renovation_budget arv),
   roundHalfEven2 (quick_total_investment purchase_price renovation_budget)⟩

/-! ### Postal-code mapping (`transfer_tax.py` lines 219-258) -/

/-- `postal_code.upper()[:3] if postal_code else ""` (line 229), embedded over
the string's character list: uppercase character-wise, keep the first three
characters, empty input yields the empty list. -/
def postalUpper3 (postal_code : String) : List Char :=
  if postal_code = "" then [] else (postal_code.data.map Char.toUpper).take 3

/-- `get_municipality_from_postal_code`: ordered rules over the uppercased
three-character piece, most specific first ("H7" nested inside the "H"
branch); unmatched codes default to `OTHER_QC`. -/
def get_municipality_from_postal_code (postal_code : String) : MunicipalityCode :=
  if ['H'].isPrefixOf (postalUpper3 postal_code) then
    if ['H', '7'].isPrefixOf (postalUpper3 postal_code) then MunicipalityCode.LAVAL
    else MunicipalityCode.MONTREAL
  else if ['G', '1'].isPrefixOf (postalUpper3 postal_code) ||
      ['G', '2'].isPrefixOf (postalUpper3 postal_code) then
    MunicipalityCode.QUEBEC_CITY
  else if ['J', '8'].isPrefixOf (postalUpper3 postal_code) ||
      ['J', '9'].isPrefixOf (postalUpper3 postal_code) then
    MunicipalityCode.GATINEAU
  else if ['J', '4'].isPrefixOf (postalUpper3 postal_code) then
    MunicipalityCode.LONGUEUIL
  else if ['J', '1'].isPrefixOf (postalUpper3 postal_code) then
    MunicipalityCode.SHERBROOKE
  else if ['G', '8'].isPrefixOf (postalUpper3 postal_code) ||
      ['G', '9'].isPrefixOf (postalUpper3 postal_code) then
    MunicipalityCode.TROIS_RIVIERES
  else MunicipalityCode.OTHER_QC

/-! ### Claim theorems on the BRRRR engine, HELOC capacity and postal codes -/

/-- C5: whenever the engine's computed `equity_left_in_deal` is 0, the result
reports `is_infinite_return = true` and the 999999 sentinel as
cash-on-cash return, for every float oracle and every input. -/
theorem brrrr_zero_equity_infinite_return (F : FloatModel) (i : PropertyFinancialsInput)
    (h : equity_left_in_deal F i = 0) :
    (calculate_brrrr F i).kpis.is_infinite_return = true ∧
    (calculate_brrrr F i).kpis.cash_on_cash_return = 999999 := by
  constructor
  · simp only [calculate_brrrr, is_infinite_return, h]
    norm_num
  · simp only [calculate_brrrr, cash_on_cash, h]
    norm_num

/-- Oracle instance used to close witness statements; the theorems hold for
every oracle, in particular this one. -/
def zeroFloat : FloatModel :=
  ⟨fun _ => 0, fun _ _ _ => 0⟩

/-- A zero-equity input: price 10000 at 20% down in OTHER_QC (transfer tax
50), no fees, no renovation, zero-month carry, ARV 14562.50 so that the net
cash-out is exactly the 2050 invested. -/
def zeroEquityInput : PropertyFinancialsInput :=
  ⟨10000, 20/100, MunicipalityCode.OTHER_QC, 0, 0, 0, 525/10000, 25,
   0, 10, 0, RenoFinancingType.HELOC, some (695/10000),
   1000, 5, 1200, 500, 2400, 5, 0, 0,
   14562 + 1/2, 525/10000, 25, 1, false⟩

/-- Witness for C5 at `zeroEquityInput`. -/
theorem brrrr_zero_equity_infinite_return_witness :
    (calculate_brrrr zeroFloat zeroEquityInput).kpis.is_infinite_return = true ∧
    (calculate_brrrr zeroFloat zeroEquityInput).kpis.cash_on_cash_return = 999999 :=
  brrrr_zero_equity_infinite_return zeroFloat zeroEquityInput (by
    norm_num [equity_left_in_deal, total_cash_invested, cash_extracted, net_cash_out,
      gross_cash_out, total_debt_before_refi, max_total_borrowing,
      total_cash_at_acquisition, total_closing_costs, down_payment_amount, loan_amount,
      initial_mortgage_amount, cmhc_result, calculate_cmhc_premium, total_reno_budget,
      contingency_amount, total_carry_cost, calculate_transfer_tax, TRANSFER_TAX_TABLES,
      bracketsTax, additionalTaxOf, roundHalfUp2, BSIF_REFINANCE_LTV_MAX,
      total_refi_costs, zeroEquityInput])

/-- C8: `calculate_brrrr` always completes with an empty `errors` list and
`is_valid = true`; regulatory non-compliance only ever lands in `warnings`. -/
theorem brrrr_always_valid (F : FloatModel) (i : PropertyFinancialsInput) :
    (calculate_brrrr F i).validation.errors = [] ∧
    (calculate_brrrr F i).validation.is_valid = true := by
  exact ⟨rfl, rfl⟩

lemma cmhc_notes_ne_nil (loan_amount down_payment_percent : ℚ) (is_owner_occupied : Bool)
    (total_units : ℕ) (purchase_price : ℚ) :
    (calculate_cmhc_premium loan_amount down_payment_percent is_owner_occupied
      total_units purchase_price).2.2 ≠ [] := by
  unfold calculate_cmhc_premium
  split_ifs <;> simp

/-- C10: the warnings list of `calculate_brrrr` is never empty — every branch
of the CMHC decision list contributes at least one note and those notes are
always prepended to the warnings. -/
theorem brrrr_warnings_nonempty (F : FloatModel) (i : PropertyFinancialsInput) :
    (calculate_brrrr F i).validation.warnings ≠ [] := by
  have hn := cmhc_notes_ne_nil (loan_amount i) i.down_payment_percent i.is_owner_occupied
    i.total_units i.purchase_price
  intro h
  simp only [calculate_brrrr, brrrr_warnings] at h
  rcases List.append_eq_nil.mp h with ⟨h1, -⟩
  rcases List.append_eq_nil.mp h1 with ⟨h2, -⟩
  rcases List.append_eq_nil.mp h2 with ⟨h3, -⟩
  rcases List.append_eq_nil.mp h3 with ⟨h4, -⟩
  exact hn h4

/-- C9: `recommended_heloc_limit` always coincides with
`available_equity_at_rotating`: when the current debt exceeds the 65%
rotating ceiling, the available-at-rotating equity is already clamped to 0,
so the `else 0` branch changes nothing. -/
theorem heloc_recommended_eq_available (inp : HelocCapacityInput) :
    (calculate_heloc_capacity inp).recommended_heloc_limit =
      (calculate_heloc_capacity inp).available_equity_at_rotating := by
  simp only [calculate_heloc_capacity]
  by_cases h : heloc_total_current_debt inp ≤ heloc_max_rotating_credit inp
  · rw [if_pos h]
  · rw [if_neg h]
    have h0 : heloc_max_rotating_credit inp - heloc_total_current_debt inp ≤ 0 := by
      have := not_le.mp h
      linarith
    unfold heloc_available_at_rotating
    rw [max_eq_left h0]

/-- C7: the postal-code scenarios — "H7A 1A1" → LAVAL (the "H7" rule beating
the general "H" rule), "H1A 1A1" → MONTREAL, "G1A 1A1" → QUEBEC_CITY,
"Z9Z 9Z9" → OTHER_QC; lowercase variants map identically (case-insensitive)
and the empty string falls through to OTHER_QC. -/
theorem postal_code_scenarios :
    get_municipality_from_postal_code "H7A 1A1" = MunicipalityCode.LAVAL ∧
    get_municipality_from_postal_code "H1A 1A1" = MunicipalityCode.MONTREAL ∧
    get_municipality_from_postal_code "G1A 1A1" = MunicipalityCode.QUEBEC_CITY ∧
    get_municipality_from_postal_code "Z9Z 9Z9" = MunicipalityCode.OTHER_QC ∧
    get_municipality_from_postal_code "h7a 1a1" = MunicipalityCode.LAVAL ∧
    get_municipality_from_postal_code "h1a 1a1" = MunicipalityCode.MONTREAL ∧
    get_municipality_from_postal_code "g1a 1a1" = MunicipalityCode.QUEBEC_CITY ∧
    get_municipality_from_postal_code "" = MunicipalityCode.OTHER_QC := by
  refine ⟨?_, ?_, ?_, ?_, ?_, ?_, ?_, ?_⟩ <;> decide
